import Mathlib

/- Verification development for the sentiment-analysis core of the
   stock_sentiment repository. All definitions are shallow embeddings of
   src/stock_sentiment/sentiment_analyzer.py; line numbers in comments
   refer to that file. Python floats are modelled by exact rationals,
   Python dict keys that may be absent by Option, and a raised exception
   by Except.error. -/

/-- Round-half-to-even of a rational to the nearest integer, mirroring the
rounding rule of the Python built-in round. -/
def roundHalfEven (q : ℚ) : ℤ :=
  let n : ℤ := ⌊q⌋
  let frac : ℚ := q - n
  if frac < 1/2 then n
  else if 1/2 < frac then n + 1
  else if n % 2 = 0 then n else n + 1

/-- Rounding to two decimal places, mirroring round(x, 2). -/
def round2 (q : ℚ) : ℚ := (roundHalfEven (q * 100) : ℚ) / 100

/-- One news article (a Python dict; every key may be absent, hence Option).
Fields: ticker, title, description, published_utc, source. -/
structure Article where
  ticker : Option String
  title : Option String
  description : Option String
  published_utc : Option String
  source : Option String
deriving DecidableEq

/-- One per-article sentiment result (a Python dict produced either by
json.loads on the LLM reply or by the default-result fallback; any key may
be absent). Numeric fields are rationals. -/
structure Judgment where
  sentiment : Option String
  score : Option ℚ
  confidence : Option ℚ
  reason : Option String
  title : Option String
  source : Option String
  published_utc : Option String
deriving DecidableEq

/-- The SentimentAnalyzer instance state set in the constructor
(lines 15-23): api_key, api_url, model, max_workers. -/
structure SentimentAnalyzer where
  api_key : String
  api_url : String
  model : String
  max_workers : ℕ
deriving DecidableEq

/-- The aggregated verdict dict returned by aggregate_sentiment
(lines 169-178 and 212-221). The details key is absent in the empty-input
branch, hence Option. -/
structure Verdict where
  final_score : ℚ
  sentiment : String
  news_count : ℕ
  avg_confidence : ℚ
  bullish_count : ℕ
  bearish_count : ℕ
  neutral_count : ℕ
  details : Option (List Judgment)
deriving DecidableEq

/-- Result of cleaning and structurally parsing the LLM reply text
(lines 86-92): either the text yields a parsed judgment record, or
json.loads fails. The string-level mechanics of markdown-fence stripping
and JSON decoding are abstracted to this two-way outcome. -/
inductive LLMReplyText where
  | parses (r : Judgment) : LLMReplyText
  | unparsable : LLMReplyText
deriving DecidableEq

/-- Observable behaviour of one backend call (lines 48-62): a success
envelope carrying one reply text, a failure envelope (code not 200 or
empty outputs, line 62), a transport-level HTTP error (raise_for_status,
line 54), or a timeout of the POST itself (line 52). -/
inductive BackendBehaviour where
  | success (text : LLMReplyText) : BackendBehaviour
  | failureEnvelope (msg : String) : BackendBehaviour
  | httpError : BackendBehaviour
  | timeout : BackendBehaviour
deriving DecidableEq

/-- Model of the method call_llm (lines 25-62, named with a leading
underscore in the source): returns the reply text from a success envelope
and raises - modelled as Except.error - on a failure envelope, an HTTP
error or a timeout. -/
def SentimentAnalyzer.call_llm (_self : SentimentAnalyzer) (b : BackendBehaviour) :
    Except String LLMReplyText :=
  match b with
  | .success text => .ok text
  | .failureEnvelope msg => .error ("LLM API error: " ++ msg)
  | .httpError => .error "HTTPError"
  | .timeout => .error "ReadTimeout"

/-- Model of the method default_result (lines 112-122, named with a leading
underscore in the source): the fixed neutral judgment annotated with the
title, source and published_utc of the article, each read with
news.get(key, empty string). -/
def SentimentAnalyzer.default_result (_self : SentimentAnalyzer) (news : Article) : Judgment :=
  { sentiment := some "neutral"
    score := some 50
    confidence := some 0
    reason := some "Analysis failed, using default"
    title := some (news.title.getD "")
    source := some (news.source.getD "")
    published_utc := some (news.published_utc.getD "") }

/-- Model of analyze_single_news (lines 64-110). The prompt construction
(lines 76-81) applies a fixed format template to the article fields and
cannot fail; every exception from the backend call or the JSON parse is
caught (lines 104-110) and replaced by the default result; on success the
original article info is attached over the parsed record (lines 95-97).
Totality of this definition embeds the property that no exception escapes
the method. -/
def SentimentAnalyzer.analyze_single_news (self : SentimentAnalyzer) (news : Article)
    (b : BackendBehaviour) : Judgment :=
  match self.call_llm b with
  | .error _ => self.default_result news
  | .ok .unparsable => self.default_result news
  | .ok (.parses r) =>
      { r with title := some (news.title.getD "")
               source := some (news.source.getD "")
               published_utc := some (news.published_utc.getD "") }

/-- An article with no keys, used only as the (never reached) getD default
when indexing news_list at a valid index. -/
def emptyArticle : Article := ⟨none, none, none, none, none⟩

/-- Value written into result slot idx when its future completes
(lines 147-153): the future result on success, or the default result for
news_list at idx on a worker error. -/
def slotResult (self : SentimentAnalyzer) (news_list : List Article)
    (futures : ℕ → Except String Judgment) (idx : ℕ) : Judgment :=
  match futures idx with
  | .ok r => r
  | .error _ => self.default_result (news_list.getD idx emptyArticle)

/-- Writing completed slots into the pre-allocated results list, one set
per completion, in completion order. -/
def setFold {α : Type} (g : ℕ → α) (order : List ℕ) (acc : List α) : List α :=
  order.foldl (fun res idx => res.set idx (g idx)) acc

/-- Model of analyze_news_batch (lines 124-155): results starts as
a list of total None slots (line 137); as_completed yields each submitted
future exactly once in an arbitrary completion order (line 147), and each
completion writes its slot at the original article index (lines 148-153).
The nondeterministic completion order is an explicit parameter. -/
def SentimentAnalyzer.analyze_news_batch (self : SentimentAnalyzer) (news_list : List Article)
    (futures : ℕ → Except String Judgment) (completionOrder : List ℕ) :
    List (Option Judgment) :=
  setFold (fun idx => some (slotResult self news_list futures idx)) completionOrder
    (List.replicate news_list.length none)

/-- r.get(confidence, 50) at lines 190 and 210. -/
def confValue (r : Judgment) : ℚ := r.confidence.getD 50

/-- r.get(score, 50) at line 191. -/
def scoreValue (r : Judgment) : ℚ := r.score.getD 50

/-- The weight of one judgment (line 193): confidence / 100 if the
confidence value is strictly positive, else 0.5. -/
def jweight (r : Judgment) : ℚ :=
  if confValue r > 0 then confValue r / 100 else 1/2

/-- One iteration of the accumulation loop at lines 189-195 over the pair
(weighted_score, total_weight). -/
def weightStep (acc : ℚ × ℚ) (r : Judgment) : ℚ × ℚ :=
  let confidence := confValue r
  let score := scoreValue r
  let weight := if confidence > 0 then confidence / 100 else (1 : ℚ)/2
  (acc.1 + score * weight, acc.2 + weight)

/-- The loop at lines 186-195: weighted_score and total_weight both start
at 0 and are accumulated over the results in order. -/
def weightTotals (results : List Judgment) : ℚ × ℚ :=
  results.foldl weightStep (0, 0)

/-- final_score before rounding (lines 197-200): weighted_score divided by
total_weight when total_weight is positive, else the neutral default 50. -/
def finalScoreRaw (results : List Judgment) : ℚ :=
  if (weightTotals results).2 > 0 then (weightTotals results).1 / (weightTotals results).2
  else 50

/-- The three-way classification at lines 202-208. -/
def overallSentiment (final_score : ℚ) : String :=
  if final_score ≥ 60 then "bullish"
  else if final_score ≤ 40 then "bearish"
  else "neutral"

/-- Predicate of the bullish tally at line 181. -/
def isBullish (r : Judgment) : Bool := decide (r.sentiment = some "bullish")

/-- Predicate of the bearish tally at line 182. -/
def isBearish (r : Judgment) : Bool := decide (r.sentiment = some "bearish")

/-- Predicate of the neutral tally at line 183. -/
def isNeutral (r : Judgment) : Bool := decide (r.sentiment = some "neutral")

/-- Unweighted mean of the confidence values (line 210). -/
def avgConfidence (results : List Judgment) : ℚ :=
  (results.map (fun r => confValue r)).sum / (results.length : ℚ)

/-- Model of aggregate_sentiment (lines 157-221). The empty branch
(lines 169-178) returns the neutral zero verdict with no details key; the
non-empty branch tallies the categories (lines 181-183), computes the
confidence-weighted final score (lines 186-200), classifies it
(lines 202-208) and returns the verdict with both scores rounded to two
decimals and details set to the input list (lines 212-221). -/
def SentimentAnalyzer.aggregate_sentiment (_self : SentimentAnalyzer)
    (results : List Judgment) : Verdict :=
  match results with
  | [] =>
    { final_score := 50
      sentiment := "neutral"
      news_count := 0
      avg_confidence := 0
      bullish_count := 0
      bearish_count := 0
      neutral_count := 0
      details := none }
  | _ :: _ =>
    { final_score := round2 (finalScoreRaw results)
      sentiment := overallSentiment (finalScoreRaw results)
      news_count := results.length
      avg_confidence := round2 (avgConfidence results)
      bullish_count := results.countP isBullish
      bearish_count := results.countP isBearish
      neutral_count := results.countP isNeutral
      details := some results }

/-- A concrete analyzer instance for closed evaluations. -/
def theAnalyzer : SentimentAnalyzer :=
  { api_key := "key", api_url := "url", model := "claude-3.7-sonnet", max_workers := 10 }

/-- A concrete article. -/
def artA : Article :=
  { ticker := some "AAPL", title := some "Apple Reports Record iPhone Sales"
    description := some "Record sales.", published_utc := some "2026-02-05T10:00:00Z"
    source := some "Reuters" }

/-- A second concrete article. -/
def artB : Article :=
  { ticker := some "AAPL", title := some "Apple Faces Supply Chain Challenges"
    description := some "Production delays.", published_utc := some "2026-02-04T08:00:00Z"
    source := some "Bloomberg" }

/-- The judgment with score 100 and confidence 100 from the spec example. -/
def jHigh : Judgment :=
  { sentiment := some "bullish", score := some 100, confidence := some 100
    reason := none, title := none, source := none, published_utc := none }

/-- The judgment with score 0 and confidence 0 from the spec example. -/
def jZero : Judgment :=
  { sentiment := some "bearish", score := some 0, confidence := some 0
    reason := none, title := none, source := none, published_utc := none }

/-- A judgment whose sentiment lies outside the three known categories. -/
def jOdd : Judgment :=
  { sentiment := some "mixed", score := some 50, confidence := some 50
    reason := none, title := none, source := none, published_utc := none }

/-- A judgment with every key absent. -/
def jNone : Judgment :=
  { sentiment := none, score := none, confidence := none
    reason := none, title := none, source := none, published_utc := none }

/-- Concrete future outcomes for witness evaluations. -/
def wFutures : ℕ → Except String Judgment :=
  fun idx => if idx = 0 then .ok jHigh else .error "worker failed"

/- Helper lemmas shared by several claims. -/

theorem jweight_pos (r : Judgment) : 0 < jweight r := by
  unfold jweight
  by_cases h : confValue r > 0
  · rw [if_pos h]; positivity
  · rw [if_neg h]; norm_num

theorem weightStep_eq (acc : ℚ × ℚ) (r : Judgment) :
    weightStep acc r = (acc.1 + scoreValue r * jweight r, acc.2 + jweight r) := rfl

theorem weightTotals_go (l : List Judgment) (acc : ℚ × ℚ) :
    l.foldl weightStep acc =
      (acc.1 + (l.map (fun r => scoreValue r * jweight r)).sum,
       acc.2 + (l.map jweight).sum) := by
  induction l generalizing acc with
  | nil => simp
  | cons a t ih =>
      rw [List.foldl_cons, ih, weightStep_eq]
      simp [add_assoc]

theorem weightTotals_eq (l : List Judgment) :
    weightTotals l =
      ((l.map (fun r => scoreValue r * jweight r)).sum, (l.map jweight).sum) := by
  unfold weightTotals
  rw [weightTotals_go]
  simp

theorem weightTotals_snd_pos {l : List Judgment} (h : l ≠ []) :
    0 < (weightTotals l).2 := by
  rw [weightTotals_eq]
  apply List.sum_pos
  · intro x hx
    rcases List.mem_map.1 hx with ⟨r, _, rfl⟩
    exact jweight_pos r
  · simpa using h

theorem aggregate_nonempty (self : SentimentAnalyzer) {results : List Judgment}
    (h : results ≠ []) :
    self.aggregate_sentiment results =
      { final_score := round2 (finalScoreRaw results)
        sentiment := overallSentiment (finalScoreRaw results)
        news_count := results.length
        avg_confidence := round2 (avgConfidence results)
        bullish_count := results.countP isBullish
        bearish_count := results.countP isBearish
        neutral_count := results.countP isNeutral
        details := some results } := by
  cases results with
  | nil => exact absurd rfl h
  | cons a t => rfl

theorem overallSentiment_bullish (q : ℚ) :
    overallSentiment q = "bullish" ↔ 60 ≤ q := by
  unfold overallSentiment
  split_ifs with h1 h2
  · exact iff_of_true rfl h1
  · exact iff_of_false (by decide) h1
  · exact iff_of_false (by decide) h1

theorem overallSentiment_bearish (q : ℚ) :
    overallSentiment q = "bearish" ↔ q ≤ 40 := by
  unfold overallSentiment
  split_ifs with h1 h2
  · exact iff_of_false (by decide) (by intro hc; linarith)
  · exact iff_of_true rfl h2
  · exact iff_of_false (by decide) h2

theorem overallSentiment_neutral (q : ℚ) :
    overallSentiment q = "neutral" ↔ 40 < q ∧ q < 60 := by
  unfold overallSentiment
  split_ifs with h1 h2
  · exact iff_of_false (by decide) (by intro hc; linarith [hc.2])
  · exact iff_of_false (by decide) (by intro hc; linarith [hc.1])
  · exact iff_of_true rfl ⟨lt_of_not_le h2, lt_of_not_le h1⟩

theorem setFold_length {α : Type} (g : ℕ → α) (order : List ℕ) (acc : List α) :
    (setFold g order acc).length = acc.length := by
  induction order generalizing acc with
  | nil => rfl
  | cons j t ih =>
      have h := ih (acc.set j (g j))
      simpa [setFold, List.foldl_cons, List.length_set] using h

theorem setFold_getElem? {α : Type} (g : ℕ → α) (order : List ℕ) (acc : List α) (i : ℕ) :
    (setFold g order acc)[i]? =
      if i ∈ order ∧ i < acc.length then some (g i) else acc[i]? := by
  induction order generalizing acc with
  | nil => simp [setFold]
  | cons j t ih =>
      have h := ih (acc.set j (g j))
      rw [show setFold g (j :: t) acc = setFold g t (acc.set j (g j)) from rfl]
      rw [h]
      simp only [List.length_set, List.mem_cons]
      by_cases hmem : i ∈ t ∧ i < acc.length
      · rw [if_pos hmem, if_pos ⟨Or.inr hmem.1, hmem.2⟩]
      · rw [if_neg hmem]
        by_cases hij : i = j
        · subst hij
          by_cases hlen : i < acc.length
          · rw [List.getElem?_set_self hlen, if_pos ⟨Or.inl rfl, hlen⟩]
          · rw [if_neg (fun hc => hlen hc.2),
              List.getElem?_eq_none (show (acc.set i (g i)).length ≤ i by
                simpa using Nat.le_of_not_lt hlen),
              List.getElem?_eq_none (Nat.le_of_not_lt hlen)]
        · rw [List.getElem?_set_ne (Ne.symm hij),
              if_neg (fun hc => hc.1.elim (fun he => hij he) (fun ht => hmem ⟨ht, hc.2⟩))]

/-- Claim C1: for every input list of articles, analyze_news_batch returns a
list of the same length as the input, and the judgment at index i is the one
produced for the article at index i, for every completion order of the
concurrent scoring tasks (as_completed yields each submitted future exactly
once, so the completion order is a permutation of the slot indices); the
right-hand side does not mention the completion order. -/
theorem analyze_news_batch_order_independent (self : SentimentAnalyzer)
    (news_list : List Article) (futures : ℕ → Except String Judgment)
    (completionOrder : List ℕ)
    (hperm : completionOrder.Perm (List.range news_list.length)) :
    self.analyze_news_batch news_list futures completionOrder =
      (List.range news_list.length).map
        (fun i => some (slotResult self news_list futures i)) ∧
    (self.analyze_news_batch news_list futures completionOrder).length
      = news_list.length := by
  have hmem : ∀ i : ℕ, i ∈ completionOrder ↔ i < news_list.length := fun i => by
    rw [hperm.mem_iff, List.mem_range]
  constructor
  · apply List.ext_getElem?
    intro i
    rw [SentimentAnalyzer.analyze_news_batch, setFold_getElem?]
    by_cases hi : i < news_list.length
    · rw [if_pos ⟨(hmem i).2 hi, by simpa using hi⟩]
      rw [List.getElem?_map, List.getElem?_range hi]
      rfl
    · rw [if_neg (fun hc => hi (by simpa using hc.2))]
      rw [List.getElem?_eq_none (show (List.replicate news_list.length
            (none : Option Judgment)).length ≤ i by simpa using Nat.le_of_not_lt hi),
          List.getElem?_eq_none (by simpa using Nat.le_of_not_lt hi)]
  · rw [SentimentAnalyzer.analyze_news_batch, setFold_length]
    simp

/-- Witness for C1: a two-article batch whose second future completes first;
the result is still indexed by original article position. -/
theorem analyze_news_batch_order_independent_witness :
    ([1, 0] : List ℕ).Perm (List.range ([artA, artB] : List Article).length) ∧
    theAnalyzer.analyze_news_batch [artA, artB] wFutures [1, 0] =
      (List.range ([artA, artB] : List Article).length).map
        (fun i => some (slotResult theAnalyzer [artA, artB] wFutures i)) :=
  ⟨by decide,
   (analyze_news_batch_order_independent theAnalyzer [artA, artB] wFutures [1, 0]
      (by decide)).1⟩

/-- Claim C2: for every non-empty list of judgments the stored final score is
the rounded confidence-weighted average sum(score * weight) / sum(weight),
where the weight of a judgment is confidence / 100 when its confidence value
is strictly positive and 0.5 otherwise, with fallback 50 when the total
weight is 0; on the two judgments with score 100 / confidence 100 and
score 0 / confidence 0 the final score is 66.67 and the sentiment bullish. -/
theorem aggregate_weighted_average (self : SentimentAnalyzer)
    (results : List Judgment) (hne : results ≠ []) :
    (self.aggregate_sentiment results).final_score =
      round2 (if (results.map jweight).sum > 0 then
          (results.map (fun r => scoreValue r * jweight r)).sum / (results.map jweight).sum
        else 50) ∧
    (∀ r ∈ results,
      jweight r = if confValue r > 0 then confValue r / 100 else 1/2) ∧
    (self.aggregate_sentiment [jHigh, jZero]).final_score = 6667/100 ∧
    (self.aggregate_sentiment [jHigh, jZero]).sentiment = "bullish" := by
  refine ⟨?_, fun r _ => rfl, ?_, ?_⟩
  · rw [aggregate_nonempty self hne]
    show round2 (finalScoreRaw results) = _
    rw [finalScoreRaw, weightTotals_eq]
  · norm_num [SentimentAnalyzer.aggregate_sentiment, finalScoreRaw, weightTotals, weightStep,
      confValue, scoreValue, jHigh, jZero, round2, roundHalfEven]
  · norm_num [SentimentAnalyzer.aggregate_sentiment, overallSentiment, finalScoreRaw,
      weightTotals, weightStep, confValue, scoreValue, jHigh, jZero]

/-- Witness for C2 at the two example judgments. -/
theorem aggregate_weighted_average_witness :
    ([jHigh, jZero] : List Judgment) ≠ [] ∧
    (theAnalyzer.aggregate_sentiment [jHigh, jZero]).final_score = 6667/100 ∧
    (theAnalyzer.aggregate_sentiment [jHigh, jZero]).sentiment = "bullish" :=
  ⟨by decide,
   (aggregate_weighted_average theAnalyzer [jHigh, jZero] (by decide)).2.2.1,
   (aggregate_weighted_average theAnalyzer [jHigh, jZero] (by decide)).2.2.2⟩

/-- Claim C3: on non-empty input the verdict sentiment is bullish exactly
when the unrounded final score is at least 60, bearish exactly when it is at
most 40, and neutral exactly when it lies strictly between 40 and 60. -/
theorem aggregate_thresholds (self : SentimentAnalyzer) (results : List Judgment)
    (hne : results ≠ []) :
    ((self.aggregate_sentiment results).sentiment = "bullish" ↔
      60 ≤ finalScoreRaw results) ∧
    ((self.aggregate_sentiment results).sentiment = "bearish" ↔
      finalScoreRaw results ≤ 40) ∧
    ((self.aggregate_sentiment results).sentiment = "neutral" ↔
      40 < finalScoreRaw results ∧ finalScoreRaw results < 60) := by
  rw [aggregate_nonempty self hne]
  exact ⟨overallSentiment_bullish _, overallSentiment_bearish _, overallSentiment_neutral _⟩

/-- Witness for C3 at a single judgment with raw score 100. -/
theorem aggregate_thresholds_witness :
    ([jHigh] : List Judgment) ≠ [] ∧
    ((theAnalyzer.aggregate_sentiment [jHigh]).sentiment = "bullish" ↔
      60 ≤ finalScoreRaw [jHigh]) :=
  ⟨by decide, (aggregate_thresholds theAnalyzer [jHigh] (by decide)).1⟩

/-- Claim C4: analyze_single_news is a total function (nothing it does can
raise), and on every backend behaviour other than a success envelope whose
text parses - failure envelope, unparsable reply text, transport error,
timeout - it returns the default judgment, which carries sentiment neutral,
score 50, confidence 0, the fixed failure reason, and the title, source and
published_utc of the input article. -/
theorem analyze_single_news_never_fails (self : SentimentAnalyzer) (news : Article)
    (b : BackendBehaviour)
    (hfail : ∀ r : Judgment, b ≠ BackendBehaviour.success (LLMReplyText.parses r)) :
    self.analyze_single_news news b = self.default_result news ∧
    (self.default_result news).sentiment = some "neutral" ∧
    (self.default_result news).score = some 50 ∧
    (self.default_result news).confidence = some 0 ∧
    (self.default_result news).reason = some "Analysis failed, using default" ∧
    (self.default_result news).title = some (news.title.getD "") ∧
    (self.default_result news).source = some (news.source.getD "") ∧
    (self.default_result news).published_utc = some (news.published_utc.getD "") := by
  refine ⟨?_, rfl, rfl, rfl, rfl, rfl, rfl, rfl⟩
  cases b with
  | success text =>
      cases text with
      | parses r => exact absurd rfl (hfail r)
      | unparsable => rfl
  | failureEnvelope msg => rfl
  | httpError => rfl
  | timeout => rfl

/-- Witness for C4 at a timeout of the backend call. -/
theorem analyze_single_news_never_fails_witness :
    (∀ r : Judgment,
      BackendBehaviour.timeout ≠ BackendBehaviour.success (LLMReplyText.parses r)) ∧
    theAnalyzer.analyze_single_news artA BackendBehaviour.timeout =
      theAnalyzer.default_result artA :=
  ⟨fun _ h => BackendBehaviour.noConfusion h,
   (analyze_single_news_never_fails theAnalyzer artA BackendBehaviour.timeout
      (fun _ h => BackendBehaviour.noConfusion h)).1⟩

/-- Claim C5, counterexample: aggregate_sentiment on the empty list does not
return a verdict carrying an empty details sequence - the empty-input dict
at lines 169-178 has no details key at all. -/
theorem aggregate_empty_counterexample :
    theAnalyzer.aggregate_sentiment [] ≠
      { final_score := 50, sentiment := "neutral", news_count := 0, avg_confidence := 0,
        bullish_count := 0, bearish_count := 0, neutral_count := 0,
        details := some ([] : List Judgment) } := fun h =>
  Option.noConfusion (show (none : Option (List Judgment)) = some [] from
    congrArg Verdict.details h)

/-- Claim C5 amended: aggregate_sentiment on the empty list returns final
score 50, sentiment neutral, news count 0, average confidence 0 and all
three tallies 0, and carries no details key. -/
theorem aggregate_empty (self : SentimentAnalyzer) :
    self.aggregate_sentiment [] =
      { final_score := 50, sentiment := "neutral", news_count := 0, avg_confidence := 0,
        bullish_count := 0, bearish_count := 0, neutral_count := 0,
        details := none } := rfl

/-- Claim C6: a failure envelope and an unparsable reply text each make
analyze_single_news return exactly the default judgment, whose title, source
and published_utc are those of the input article. -/
theorem analyze_single_news_default_exact (self : SentimentAnalyzer) (news : Article)
    (msg : String) :
    self.analyze_single_news news (BackendBehaviour.failureEnvelope msg) =
      self.default_result news ∧
    self.analyze_single_news news (BackendBehaviour.success LLMReplyText.unparsable) =
      self.default_result news ∧
    self.default_result news =
      { sentiment := some "neutral", score := some 50, confidence := some 0,
        reason := some "Analysis failed, using default",
        title := some (news.title.getD ""), source := some (news.source.getD ""),
        published_utc := some (news.published_utc.getD "") } :=
  ⟨rfl, rfl, rfl⟩

theorem countP_three_categories (l : List Judgment) :
    (∀ r ∈ l, r.sentiment = some "bullish" ∨ r.sentiment = some "neutral" ∨
      r.sentiment = some "bearish") →
    l.countP isBullish + l.countP isNeutral + l.countP isBearish = l.length := by
  induction l with
  | nil => intro _; rfl
  | cons a t ih =>
      intro hsent
      have ha := hsent a (List.mem_cons_self a t)
      have ih2 := ih (fun r hr => hsent r (List.mem_cons_of_mem a hr))
      rw [List.countP_cons, List.countP_cons, List.countP_cons, List.length_cons]
      rcases ha with ha | ha | ha <;>
        simp only [isBullish, isNeutral, isBearish, ha] <;> simp <;> omega

/-- Claim C7, counterexample: on a judgment whose sentiment string is outside
the three categories the tallies sum to 0 while news_count is 1, so the
claimed invariant fails for general judgment lists; moreover the empty list
yields a verdict with no details key at all. -/
theorem aggregate_counts_counterexample :
    ¬ ((theAnalyzer.aggregate_sentiment [jOdd]).bullish_count
        + (theAnalyzer.aggregate_sentiment [jOdd]).neutral_count
        + (theAnalyzer.aggregate_sentiment [jOdd]).bearish_count
      = (theAnalyzer.aggregate_sentiment [jOdd]).news_count) := by
  show ¬ (([jOdd].countP isBullish) + ([jOdd].countP isNeutral)
    + ([jOdd].countP isBearish) = [jOdd].length)
  decide

/-- Claim C7 amended: for every non-empty list of judgments each of whose
sentiment is bullish, neutral or bearish, the three tallies sum to
news_count, news_count is the length of the details sequence, and details is
the input sequence in its original order (on the empty list the counts and
news_count are all 0 but the verdict carries no details key). -/
theorem aggregate_counts_invariant (self : SentimentAnalyzer)
    (results : List Judgment) (hne : results ≠ [])
    (hsent : ∀ r ∈ results, r.sentiment = some "bullish" ∨
      r.sentiment = some "neutral" ∨ r.sentiment = some "bearish") :
    (self.aggregate_sentiment results).bullish_count
      + (self.aggregate_sentiment results).neutral_count
      + (self.aggregate_sentiment results).bearish_count
      = (self.aggregate_sentiment results).news_count ∧
    (self.aggregate_sentiment results).news_count = results.length ∧
    (self.aggregate_sentiment results).details = some results := by
  rw [aggregate_nonempty self hne]
  exact ⟨countP_three_categories results hsent, rfl, rfl⟩

/-- Witness for C7 at a one-judgment list with sentiment bullish. -/
theorem aggregate_counts_invariant_witness :
    ([jHigh] : List Judgment) ≠ [] ∧
    (theAnalyzer.aggregate_sentiment [jHigh]).bullish_count
      + (theAnalyzer.aggregate_sentiment [jHigh]).neutral_count
      + (theAnalyzer.aggregate_sentiment [jHigh]).bearish_count
      = (theAnalyzer.aggregate_sentiment [jHigh]).news_count ∧
    (theAnalyzer.aggregate_sentiment [jHigh]).details = some [jHigh] :=
  ⟨by decide,
   (aggregate_counts_invariant theAnalyzer [jHigh] (by decide)
      (by intro r hr; simp at hr; subst hr; exact Or.inl rfl)).1,
   (aggregate_counts_invariant theAnalyzer [jHigh] (by decide)
      (by intro r hr; simp at hr; subst hr; exact Or.inl rfl)).2.2⟩

/-- Claim C8: aggregate_sentiment is pure and deterministic - two calls on
the same judgment sequence give the identical verdict, and the verdict does
not depend on the analyzer instance state, the only hidden state in scope. -/
theorem aggregate_deterministic (a b : SentimentAnalyzer) (results : List Judgment) :
    a.aggregate_sentiment results = a.aggregate_sentiment results ∧
    a.aggregate_sentiment results = b.aggregate_sentiment results :=
  ⟨rfl, rfl⟩

/-- Claim C9: on non-empty input every per-judgment weight is strictly
positive (confidence / 100 for a strictly positive confidence value, 0.5
for zero, negative or missing confidence), hence the total weight is
strictly positive, the division-by-zero fallback branch is unreachable, and
the stored final score is always the rounded quotient. -/
theorem aggregate_weights_positive (self : SentimentAnalyzer)
    (results : List Judgment) (hne : results ≠ []) :
    (∀ r ∈ results, 0 < jweight r) ∧
    0 < (weightTotals results).2 ∧
    finalScoreRaw results = (weightTotals results).1 / (weightTotals results).2 ∧
    (self.aggregate_sentiment results).final_score =
      round2 ((weightTotals results).1 / (weightTotals results).2) := by
  have hpos := weightTotals_snd_pos hne
  have hfs : finalScoreRaw results
      = (weightTotals results).1 / (weightTotals results).2 := by
    rw [finalScoreRaw, if_pos hpos]
  refine ⟨fun r _ => jweight_pos r, hpos, hfs, ?_⟩
  rw [aggregate_nonempty self hne]
  show round2 (finalScoreRaw results) = _
  rw [hfs]

/-- Witness for C9 at a one-judgment list. -/
theorem aggregate_weights_positive_witness :
    ([jHigh] : List Judgment) ≠ [] ∧
    0 < (weightTotals [jHigh]).2 ∧
    finalScoreRaw [jHigh] = (weightTotals [jHigh]).1 / (weightTotals [jHigh]).2 :=
  ⟨by decide,
   (aggregate_weights_positive theAnalyzer [jHigh] (by decide)).2.1,
   (aggregate_weights_positive theAnalyzer [jHigh] (by decide)).2.2.1⟩

/-- Claim C10: a judgment with no confidence key is treated as confidence 50,
so it gets weight 0.5 and contributes 50 to the confidence average; a
judgment with no score key contributes score 50 to the weighted sum; a
judgment whose sentiment is missing or outside the three categories is
counted in none of the three tallies. -/
theorem aggregate_missing_keys (self : SentimentAnalyzer) (r1 r2 r3 : Judgment)
    (h1 : r1.confidence = none) (h2 : r2.score = none)
    (h3 : r3.sentiment ≠ some "bullish" ∧ r3.sentiment ≠ some "neutral" ∧
      r3.sentiment ≠ some "bearish") :
    confValue r1 = 50 ∧ jweight r1 = 1/2 ∧
    (self.aggregate_sentiment [r1]).avg_confidence = 50 ∧
    scoreValue r2 = 50 ∧
    (weightTotals [r2]).1 = 50 * jweight r2 ∧
    (self.aggregate_sentiment [r3]).bullish_count = 0 ∧
    (self.aggregate_sentiment [r3]).neutral_count = 0 ∧
    (self.aggregate_sentiment [r3]).bearish_count = 0 := by
  have hc : confValue r1 = 50 := by simp [confValue, h1]
  have hs : scoreValue r2 = 50 := by simp [scoreValue, h2]
  refine ⟨hc, ?_, ?_, hs, ?_, ?_, ?_, ?_⟩
  · rw [jweight, hc]; norm_num
  · show round2 (avgConfidence [r1]) = 50
    have ha : avgConfidence [r1] = 50 := by simp [avgConfidence, confValue, h1]
    rw [ha]; norm_num [round2, roundHalfEven]
  · have hw : (weightTotals [r2]).1 = scoreValue r2 * jweight r2 := by
      rw [weightTotals_eq]; simp
    rw [hw, hs]
  · show ([r3].countP isBullish) = 0
    simp [List.countP_cons, isBullish, h3.1]
  · show ([r3].countP isNeutral) = 0
    simp [List.countP_cons, isNeutral, h3.2.1]
  · show ([r3].countP isBearish) = 0
    simp [List.countP_cons, isBearish, h3.2.2]

/-- Witness for C10 at the judgment with every key absent. -/
theorem aggregate_missing_keys_witness :
    jNone.confidence = none ∧ jNone.score = none ∧ confValue jNone = 50 ∧
    jweight jNone = 1/2 ∧
    (theAnalyzer.aggregate_sentiment [jNone]).bullish_count = 0 := by
  have h := aggregate_missing_keys theAnalyzer jNone jNone jNone rfl rfl
    ⟨by decide, by decide, by decide⟩
  exact ⟨rfl, rfl, h.1, h.2.1, h.2.2.2.2.2.1⟩
